import Mathlib

/-!
Shallow embedding of the query/aggregation core of `findingaflat.py`
(a Dash dashboard over a cleaned table of rental listings).

Numeric values coming from pandas are modelled as rationals (`ℚ`); a value
that may be missing (`NaN` after `pd.to_numeric(..., errors='coerce')`, or an
empty numeric input, or an absent store) is an `Option`.  Python truthiness of
a number (`if max_distance:`) is modelled explicitly by `truthyNum`.
-/

namespace FindingAFlat

/-- One raw record of the input table before cleaning: each numeric column may
have failed coercion (`None` = NaN). Mirrors the columns touched by lines
29-36 of the source. -/
structure RawRow where
  price : Option ℚ
  bedrooms : Option ℚ
  bathrooms : Option ℚ
  latitude : Option ℚ
  longitude : Option ℚ
deriving DecidableEq, Repr

/-- One row of the cleaned table `df_clean`: `price`, `latitude`, `longitude`
are guaranteed present; `bedrooms`/`bathrooms` may still be missing. -/
structure Listing where
  price : ℚ
  bedrooms : Option ℚ
  bathrooms : Option ℚ
  latitude : ℚ
  longitude : ℚ
deriving DecidableEq, Repr

/-- Cleaning of a single row: kept only when `price`, `latitude` and
`longitude` all coerced successfully (`df.dropna(subset=['price','latitude','longitude'])`,
line 36). -/
def cleanRow (r : RawRow) : Option Listing :=
  match r.price, r.latitude, r.longitude with
  | some p, some la, some lo =>
      some { price := p, bedrooms := r.bedrooms, bathrooms := r.bathrooms,
             latitude := la, longitude := lo }
  | _, _, _ => none

/-- The cleaned table `df_clean` (line 36): rows failing coercion on the three
critical columns are dropped, original order preserved.  The source raises no
error when the result is empty. -/
def df_clean (rows : List RawRow) : List Listing :=
  rows.filterMap cleanRow

/-- The two display modes of the table (`table-toggle`, lines 562-572). -/
inductive Toggle
  | filtered
  | all
deriving DecidableEq, Repr

/-- The inputs of the main callback `update_dashboard` (line 777), apart from
the current page.  `bedrooms`/`bathrooms` are `none` for the `'all'` dropdown
value; `distance_data` is the `distances` list held in the `distance-data`
store (`none` when the store is empty); `max_distance` is the numeric
`distance-input` (`none` when blank). -/
structure DashInput where
  bedrooms : Option ℚ
  bathrooms : Option ℚ
  price_range : ℚ × ℚ
  distance_data : Option (List ℚ)
  max_distance : Option ℚ
  table_toggle : Toggle
deriving DecidableEq, Repr

/-- Python truthiness of an optional number: `None` and `0` are falsy,
every other number is truthy. -/
def truthyNum (x : Option ℚ) : Bool :=
  match x with
  | none => false
  | some v => decide (v ≠ 0)

/-- Lines 781-785: decorate the cleaned rows with a `distance_km` column.
When the store holds a (non-empty) distances list the column is that list,
aligned positionally with the rows; otherwise the column is constant `0`. -/
def addDistanceColumn (listings : List Listing) (dd : Option (List ℚ)) :
    List (Listing × ℚ) :=
  match dd with
  | some ds => if ds.isEmpty then listings.map (fun l => (l, 0)) else listings.zip ds
  | none => listings.map (fun l => (l, 0))

/-- Lines 788-798: the filter chain of `update_dashboard`, applied to the
decorated rows in the source's order: bedrooms, bathrooms, price range,
then - only when the distance store is non-empty AND `max_distance` is truthy -
the distance cutoff. -/
def filtered_df (listings : List Listing) (i : DashInput) : List (Listing × ℚ) :=
  let s0 := addDistanceColumn listings i.distance_data
  let s1 :=
    match i.bedrooms with
    | none => s0
    | some b => s0.filter (fun r => decide (r.1.bedrooms = some b))
  let s2 :=
    match i.bathrooms with
    | none => s1
    | some b => s1.filter (fun r => decide (r.1.bathrooms = some b))
  let s3 := s2.filter
    (fun r => decide (i.price_range.1 ≤ r.1.price) && decide (r.1.price ≤ i.price_range.2))
  if i.distance_data.isSome && truthyNum i.max_distance then
    s3.filter (fun r => decide (r.2 ≤ i.max_distance.getD 0))
  else s3

/-- The conjunction of the four predicates of the filter chain, as one
boolean test on a decorated row. -/
def passes (i : DashInput) (r : Listing × ℚ) : Bool :=
  (match i.bedrooms with
   | none => true
   | some b => decide (r.1.bedrooms = some b)) &&
  (match i.bathrooms with
   | none => true
   | some b => decide (r.1.bathrooms = some b)) &&
  (decide (i.price_range.1 ≤ r.1.price) && decide (r.1.price ≤ i.price_range.2)) &&
  (if i.distance_data.isSome && truthyNum i.max_distance then
     decide (r.2 ≤ i.max_distance.getD 0)
   else true)

/-- Mean of a list of rationals (`Series.mean`), as an exact rational. -/
def listMean (xs : List ℚ) : ℚ := xs.sum / xs.length

/-- `filtered_count` (line 802). -/
def filtered_count (listings : List Listing) (i : DashInput) : ℕ :=
  (filtered_df listings i).length

/-- Line 803: the average price shown in the stats card, `none` standing for
the string `"N/A"`.  The `£...:.0f` formatting of the mean is presentation and
is not modelled; the value carried is the exact mean. -/
def avg_price (listings : List Listing) (i : DashInput) : Option ℚ :=
  if 0 < filtered_count listings i then
    some (listMean ((filtered_df listings i).map (fun r => r.1.price)))
  else none

/-- Line 804: the average distance shown in the stats card, `none` standing
for `"N/A"`; it is `"N/A"` unless the filtered view is non-empty and the
distance store is non-empty (truthy). -/
def avg_dist (listings : List Listing) (i : DashInput) : Option ℚ :=
  if 0 < filtered_count listings i ∧ i.distance_data.isSome then
    some (listMean ((filtered_df listings i).map (fun r => r.2)))
  else none

/-- Round a rational to the nearest integer, ties to even - the rounding used
by numpy/pandas and by Python float formatting. -/
def roundHalfEvenInt (x : ℚ) : ℤ :=
  let n := ⌊x⌋
  let f := x - n
  if f < 1/2 then n
  else if 1/2 < f then n + 1
  else if Even n then n else n + 1

/-- `Series.round(3)` on the distance column (line 957), idealized over `ℚ`. -/
def round3 (x : ℚ) : ℚ := (roundHalfEvenInt (x * 1000) : ℚ) / 1000

/-- Lines 950-957: the table backing the listings view.  In `'filtered'` mode
it is the filtered view; in `'all'` mode it is the full cleaned table,
re-decorated with the last-applied distance column (or no real column - here a
zero column - when the store is empty).  The distance column is rounded to
three decimals. -/
def table_df (listings : List Listing) (i : DashInput) : List (Listing × ℚ) :=
  let base :=
    match i.table_toggle with
    | Toggle.filtered => filtered_df listings i
    | Toggle.all => addDistanceColumn listings i.distance_data
  base.map (fun r => (r.1, round3 r.2))

/-- Line 960. -/
def items_per_page : ℕ := 10

/-- Line 962: `max(1, (total_items + items_per_page - 1) // items_per_page)`. -/
def total_pages (total_items : ℕ) : ℕ :=
  max 1 ((total_items + items_per_page - 1) / items_per_page)

/-- Line 965: `max(1, min(current_page, total_pages))`. -/
def clamp_page (current_page : ℤ) (tp : ℕ) : ℤ :=
  max 1 (min current_page (tp : ℤ))

/-- Line 968. -/
def start_idx (cp : ℤ) : ℤ := (cp - 1) * items_per_page

/-- Line 969: `min(start_idx + items_per_page, total_items)`. -/
def end_idx (cp : ℤ) (total_items : ℕ) : ℤ :=
  min (start_idx cp + items_per_page) (total_items : ℤ)

/-- Line 972: `table_df.iloc[start_idx:end_idx]` (for the clamped, hence
non-negative, page indices the slice is drop-then-take). -/
def page_df (tbl : List (Listing × ℚ)) (cp : ℤ) : List (Listing × ℚ) :=
  (tbl.drop (start_idx cp).toNat).take ((end_idx cp tbl.length - start_idx cp)).toNat

/-- Line 1093: the Previous button is disabled on page 1. -/
def prev_btn_disabled (cp : ℤ) : Bool := decide (cp ≤ 1)

/-- Line 1094: the Next button is disabled on the last page. -/
def next_btn_disabled (cp : ℤ) (tp : ℕ) : Bool := decide ((tp : ℤ) ≤ cp)

/-- The triggers of the `update_page` callback (lines 723-734): the two
navigation buttons and every other input wired into it. -/
inductive PageTrigger
  | prev_page_btn
  | next_page_btn
  | bedrooms_filter
  | bathrooms_filter
  | price_slider
  | distance_data_store
  | distance_input
  | table_toggle_radio
deriving DecidableEq, Repr

/-- Lines 735-754: the `current-page` store callback.  Any trigger other than
the two navigation buttons resets the page to 1; Previous decrements with a
floor of 1; Next increments without an upper bound (clamping happens later in
`update_dashboard`). -/
def update_page (trigger : PageTrigger) (current_page : ℤ) : ℤ :=
  match trigger with
  | PageTrigger.prev_page_btn => max 1 (current_page - 1)
  | PageTrigger.next_page_btn => current_page + 1
  | _ => 1

/-- The data-level outputs of `update_dashboard` (lines 1096-1108) that the
claims are about: the stats cards, the current table page and the page
metadata. -/
structure ViewModel where
  total_listings : ℕ
  filtered_listings : ℕ
  avg_price : Option ℚ
  avg_distance : Option ℚ
  table_rows : List (Listing × ℚ)
  current_page : ℤ
  total_pages : ℕ
  start_index : ℤ
  end_index : ℤ
  total_items : ℕ
  prev_disabled : Bool
  next_disabled : Bool
deriving DecidableEq, Repr

/-- Lines 777-1108 (the data path of the main callback): filter, aggregate,
choose the table per display mode, clamp the page and slice. -/
def update_dashboard (listings : List Listing) (i : DashInput) (current_page : ℤ) :
    ViewModel :=
  let fdf := filtered_df listings i
  let tdf := table_df listings i
  let total_items := tdf.length
  let tp := total_pages total_items
  let cp := clamp_page current_page tp
  { total_listings := listings.length
    filtered_listings := fdf.length
    avg_price := avg_price listings i
    avg_distance := avg_dist listings i
    table_rows := page_df tdf cp
    current_page := cp
    total_pages := tp
    start_index := start_idx cp
    end_index := end_idx cp total_items
    total_items := total_items
    prev_disabled := prev_btn_disabled cp
    next_disabled := next_btn_disabled cp tp }

/-! ### Helper lemmas -/

/-- The sequential filter chain of `update_dashboard` equals a single filter
by the conjunction of the four predicates. -/
theorem filtered_df_eq_filter (listings : List Listing) (i : DashInput) :
    filtered_df listings i = (addDistanceColumn listings i.distance_data).filter (passes i) := by
  unfold filtered_df passes
  cases hb : i.bedrooms <;> cases ha : i.bathrooms <;>
    cases hc : (i.distance_data.isSome && truthyNum i.max_distance) <;>
      simp only [hc, Bool.false_eq_true, if_false, if_true, List.filter_filter,
        Bool.and_true, Bool.true_and] <;>
      exact List.filter_congr (fun r _ => by
        cases h1 : decide (i.price_range.1 ≤ r.1.price) <;>
        cases h2 : decide (r.1.price ≤ i.price_range.2) <;>
        simp_all [Bool.and_comm, Bool.and_assoc, Bool.and_left_comm])

/-- Each run of the filter chain is a sublist of (hence order-preserving over)
the decorated rows. -/
theorem filtered_df_sublist (listings : List Listing) (i : DashInput) :
    (filtered_df listings i).Sublist (addDistanceColumn listings i.distance_data) := by
  rw [filtered_df_eq_filter]
  exact List.filter_sublist _

/-- An empty store filters to an empty view. -/
theorem filtered_df_nil (i : DashInput) : filtered_df [] i = [] := by
  rw [filtered_df_eq_filter]
  cases h : i.distance_data with
  | none => simp [addDistanceColumn]
  | some ds => simp [addDistanceColumn]

/-- Integer ceiling division by 10 agrees with the source's
`(total_items + items_per_page - 1) // items_per_page` idiom. -/
theorem ceil_div_ten (n : ℕ) : ⌈(n : ℚ) / 10⌉₊ = (n + 9) / 10 := by
  rcases Nat.eq_zero_or_pos n with h | h
  · subst h; simp
  · have h10 : ((n + 9) / 10 : ℕ) ≠ 0 := by omega
    rw [Nat.ceil_eq_iff h10]
    constructor
    · rw [lt_div_iff₀ (by norm_num : (0:ℚ) < 10)]
      have hn : ((n + 9) / 10 - 1) * 10 < n := by omega
      exact_mod_cast hn
    · rw [div_le_iff₀ (by norm_num : (0:ℚ) < 10)]
      have hn : n ≤ ((n + 9) / 10) * 10 := by omega
      exact_mod_cast hn

/-- `total_pages` is always at least 1. -/
theorem one_le_total_pages (n : ℕ) : 1 ≤ total_pages n := le_max_left _ _

/-- The clamped page sits in `[1, total_pages]`. -/
theorem clamp_page_bounds (p : ℤ) (n : ℕ) :
    1 ≤ clamp_page p (total_pages n) ∧ clamp_page p (total_pages n) ≤ (total_pages n : ℤ) := by
  have h := one_le_total_pages n
  unfold clamp_page
  omega

/-! ### Sample data for concrete checks -/

/-- A listing priced 100 with one bedroom and one bathroom, at the origin. -/
def sampleListing : Listing :=
  { price := 100, bedrooms := some 1, bathrooms := some 1, latitude := 0, longitude := 0 }

/-- A listing priced 300 with two bedrooms and two bathrooms. -/
def sampleListing2 : Listing :=
  { price := 300, bedrooms := some 2, bathrooms := some 2, latitude := 1, longitude := 1 }

/-- The identity criteria: every dropdown on `'all'`, the full slider range,
no distance store, no max distance. -/
def sampleInput : DashInput :=
  { bedrooms := none, bathrooms := none, price_range := (0, 10000),
    distance_data := none, max_distance := none, table_toggle := Toggle.filtered }

/-! ### Claims -/

/-- Claim C7 (confirmed): whenever any filter criterion changes (bedrooms,
bathrooms, price range, max distance) or a new DistanceQuery is submitted
(the `distance-data` store changes), the page callback returns 1 regardless
of the previous page. -/
theorem filter_change_resets_page (p : ℤ) :
    update_page PageTrigger.bedrooms_filter p = 1 ∧
    update_page PageTrigger.bathrooms_filter p = 1 ∧
    update_page PageTrigger.price_slider p = 1 ∧
    update_page PageTrigger.distance_input p = 1 ∧
    update_page PageTrigger.distance_data_store p = 1 :=
  ⟨rfl, rfl, rfl, rfl, rfl⟩

/-- Claim C10 (confirmed): every trigger of the page callback other than the
prev/next navigation buttons resets the current page to 1 - including the
display-mode toggle and edits of the max-distance input. -/
theorem non_nav_triggers_reset_page (t : PageTrigger) (p : ℤ)
    (h1 : t ≠ PageTrigger.prev_page_btn) (h2 : t ≠ PageTrigger.next_page_btn) :
    update_page t p = 1 := by
  cases t <;> simp_all [update_page]

/-- Witness for C10: toggling the display mode resets page 7 to page 1. -/
theorem non_nav_triggers_reset_page_witness :
    update_page PageTrigger.table_toggle_radio 7 = 1 :=
  non_nav_triggers_reset_page PageTrigger.table_toggle_radio 7
    (by decide) (by decide)

/-- Claim C5 (confirmed): the page shown by the dashboard is always clamped
into `[1, total_pages]`; and when Next fires while the view is on the last
page, the shown page is unchanged and the Next button is disabled
(`has_next == false`). -/
theorem page_clamped_on_next (L : List Listing) (i : DashInput) (s : ℤ) :
    (1 ≤ (update_dashboard L i s).current_page ∧
     (update_dashboard L i s).current_page ≤ ((update_dashboard L i s).total_pages : ℤ)) ∧
    ((update_dashboard L i s).current_page = ((update_dashboard L i s).total_pages : ℤ) →
      (update_dashboard L i (update_page PageTrigger.next_page_btn s)).current_page
        = (update_dashboard L i s).current_page ∧
      (update_dashboard L i (update_page PageTrigger.next_page_btn s)).next_disabled = true) := by
  simp only [update_dashboard, update_page]
  have htp := one_le_total_pages (table_df L i).length
  unfold clamp_page next_btn_disabled
  constructor
  · omega
  · intro h
    constructor
    · omega
    · simp only [decide_eq_true_eq]
      omega

/-- Witness for C5: with one listing (a single page), pressing Next leaves the
shown page at 1 and Next stays disabled. -/
theorem page_clamped_on_next_witness :
    (update_dashboard [sampleListing] sampleInput
        (update_page PageTrigger.next_page_btn 1)).current_page
      = (update_dashboard [sampleListing] sampleInput 1).current_page ∧
    (update_dashboard [sampleListing] sampleInput
        (update_page PageTrigger.next_page_btn 1)).next_disabled = true :=
  (page_clamped_on_next [sampleListing] sampleInput 1).2 (by decide)

/-- Counterexample to C3 as stated: a dataset whose every raw row fails
cleaning loads into an empty store with no error - the source defines no
`LoadError` and raises nothing; the dashboard then reports zero listings,
`"N/A"` average price and a single (empty) page. -/
theorem empty_clean_no_failure :
    df_clean [{ price := none, bedrooms := some 1, bathrooms := some 1,
                latitude := some 0, longitude := some 0 },
              { price := some 100, bedrooms := none, bathrooms := none,
                latitude := none, longitude := some 0 }] = [] ∧
    (update_dashboard (df_clean
        [{ price := none, bedrooms := some 1, bathrooms := some 1,
           latitude := some 0, longitude := some 0 },
         { price := some 100, bedrooms := none, bathrooms := none,
           latitude := none, longitude := some 0 }]) sampleInput 1).total_listings = 0 ∧
    (update_dashboard (df_clean
        [{ price := none, bedrooms := some 1, bathrooms := some 1,
           latitude := some 0, longitude := some 0 },
         { price := some 100, bedrooms := none, bathrooms := none,
           latitude := none, longitude := some 0 }]) sampleInput 1).avg_price = none ∧
    (update_dashboard (df_clean
        [{ price := none, bedrooms := some 1, bathrooms := some 1,
           latitude := some 0, longitude := some 0 },
         { price := some 100, bedrooms := none, bathrooms := none,
           latitude := none, longitude := some 0 }]) sampleInput 1).total_pages = 1 := by
  decide

/-- Claim C3 (amended): loading a dataset that has zero valid rows after
cleaning does not fail - the code has no `LoadError`; it yields an empty
store, over which the dashboard reports zero total and filtered listings and
`"N/A"` average price. -/
theorem empty_clean_dataset_loads (rows : List RawRow)
    (h : ∀ r ∈ rows, r.price = none ∨ r.latitude = none ∨ r.longitude = none)
    (i : DashInput) (p : ℤ) :
    df_clean rows = [] ∧
    (update_dashboard (df_clean rows) i p).total_listings = 0 ∧
    (update_dashboard (df_clean rows) i p).filtered_listings = 0 ∧
    (update_dashboard (df_clean rows) i p).avg_price = none := by
  have hclean : df_clean rows = [] := by
    refine List.filterMap_eq_nil_iff.mpr (fun r hr => ?_)
    rcases h r hr with h1 | h1 | h1 <;>
      cases hp : r.price <;> cases hla : r.latitude <;> cases hlo : r.longitude <;>
        simp_all [cleanRow]
  refine ⟨hclean, ?_, ?_, ?_⟩ <;>
    simp [hclean, update_dashboard, filtered_df_nil, avg_price, filtered_count]

/-- Witness for C3 (amended): a two-row input whose rows are all dropped. -/
theorem empty_clean_dataset_loads_witness :
    df_clean [{ price := none, bedrooms := none, bathrooms := none,
                latitude := some 1, longitude := some 1 }] = [] ∧
    (update_dashboard (df_clean
        [{ price := none, bedrooms := none, bathrooms := none,
           latitude := some 1, longitude := some 1 }]) sampleInput 1).total_listings = 0 ∧
    (update_dashboard (df_clean
        [{ price := none, bedrooms := none, bathrooms := none,
           latitude := some 1, longitude := some 1 }]) sampleInput 1).filtered_listings = 0 ∧
    (update_dashboard (df_clean
        [{ price := none, bedrooms := none, bathrooms := none,
           latitude := some 1, longitude := some 1 }]) sampleInput 1).avg_price = none :=
  empty_clean_dataset_loads _ (by decide) sampleInput 1

/-- Counterexample to C1 as stated: with a distance column applied and
`max_distance_km = 0`, a listing at distance 5 km (not at the origin) still
passes the filter - the distance predicate is skipped because `0` is falsy -
so `filtered_count = 1`, not 0, and the average price is not `"N/A"`. -/
theorem max_distance_zero_not_filtering :
    (5:ℚ) ≠ 0 ∧
    filtered_df [sampleListing]
        { bedrooms := none, bathrooms := none, price_range := (0, 10000),
          distance_data := some [5], max_distance := some 0,
          table_toggle := Toggle.filtered } = [(sampleListing, 5)] ∧
    filtered_count [sampleListing]
        { bedrooms := none, bathrooms := none, price_range := (0, 10000),
          distance_data := some [5], max_distance := some 0,
          table_toggle := Toggle.filtered } = 1 ∧
    avg_price [sampleListing]
        { bedrooms := none, bathrooms := none, price_range := (0, 10000),
          distance_data := some [5], max_distance := some 0,
          table_toggle := Toggle.filtered } ≠ none := by
  refine ⟨by norm_num, by decide, by decide, ?_⟩
  simp only [avg_price]
  split
  · simp
  · next hc => exact absurd (by decide : 0 < filtered_count [sampleListing]
      { bedrooms := none, bathrooms := none, price_range := (0, 10000),
        distance_data := some [5], max_distance := some 0,
        table_toggle := Toggle.filtered }) hc

/-- Claim C1 (amended): the distance predicate is active only when a distance
column exists and `max_distance_km` is a nonzero value; with
`max_distance_km = 0` (falsy in the source's truthiness test) the predicate is
inactive, so filtering, counts and statistics are exactly those obtained with
no max distance set at all. -/
theorem max_distance_zero_inactive (L : List Listing) (i : DashInput)
    (h : i.max_distance = some 0) :
    filtered_df L i = filtered_df L { i with max_distance := none } ∧
    filtered_count L i = filtered_count L { i with max_distance := none } ∧
    avg_price L i = avg_price L { i with max_distance := none } ∧
    avg_dist L i = avg_dist L { i with max_distance := none } := by
  have key : filtered_df L i = filtered_df L { i with max_distance := none } := by
    unfold filtered_df
    simp [h, truthyNum]
  exact ⟨key, by simp [filtered_count, key],
    by simp [avg_price, filtered_count, key],
    by simp [avg_dist, filtered_count, key]⟩

/-- Witness for C1 (amended): concrete check at `max_distance = 0` over one
listing at distance 5. -/
theorem max_distance_zero_inactive_witness :
    filtered_df [sampleListing]
        { bedrooms := none, bathrooms := none, price_range := (0, 10000),
          distance_data := some [5], max_distance := some 0,
          table_toggle := Toggle.filtered }
      = filtered_df [sampleListing]
        { bedrooms := none, bathrooms := none, price_range := (0, 10000),
          distance_data := some [5], max_distance := none,
          table_toggle := Toggle.filtered } :=
  (max_distance_zero_inactive [sampleListing]
    { bedrooms := none, bathrooms := none, price_range := (0, 10000),
      distance_data := some [5], max_distance := some 0,
      table_toggle := Toggle.filtered } rfl).1

/-- Counterexample to C2 as stated: increasing `max_distance_km` from 0 to 1
(all else fixed) shrinks the filtered result set from one listing to none,
because `max_distance = 0` is falsy and deactivates the distance predicate
while `max_distance = 1` activates it. -/
theorem distance_monotonicity_fails_at_zero :
    (0:ℚ) ≤ 1 ∧
    filtered_count [sampleListing]
        { bedrooms := none, bathrooms := none, price_range := (0, 10000),
          distance_data := some [5], max_distance := some 0,
          table_toggle := Toggle.filtered } = 1 ∧
    filtered_count [sampleListing]
        { bedrooms := none, bathrooms := none, price_range := (0, 10000),
          distance_data := some [5], max_distance := some 1,
          table_toggle := Toggle.filtered } = 0 := by
  refine ⟨by norm_num, by decide, by decide⟩

/-- Claim C2 (amended): monotonicity holds as long as the distance predicate's
activity does not flip: for positive `0 < d1 ≤ d2` (all else fixed) raising
the max distance never shrinks the filtered result set, and narrowing the
price interval never grows it (both as order-preserving sublists).  Raising
the max distance from the falsy value 0 to a positive value can shrink the
set. -/
theorem filter_monotonicity (L : List Listing) (i : DashInput)
    (d1 d2 : ℚ) (hd1 : 0 < d1) (hd : d1 ≤ d2)
    (pmin pmax qmin qmax : ℚ) (hmin : pmin ≤ qmin) (hmax : qmax ≤ pmax) :
    (filtered_df L { i with max_distance := some d1 }).Sublist
      (filtered_df L { i with max_distance := some d2 }) ∧
    (filtered_df L { i with price_range := (qmin, qmax) }).Sublist
      (filtered_df L { i with price_range := (pmin, pmax) }) := by
  have h1 : ¬ d1 = 0 := ne_of_gt hd1
  have h2 : ¬ d2 = 0 := ne_of_gt (lt_of_lt_of_le hd1 hd)
  have e1 : truthyNum (some d1) = true := by simp [truthyNum, h1]
  have e2 : truthyNum (some d2) = true := by simp [truthyNum, h2]
  constructor
  · rw [filtered_df_eq_filter, filtered_df_eq_filter]
    refine List.monotone_filter_right _ (fun r hr => ?_)
    revert hr
    simp only [passes, e1, e2, Bool.and_true, Option.getD_some]
    by_cases hs : i.distance_data.isSome = true
    · simp only [hs, if_true, Bool.and_eq_true, decide_eq_true_eq]
      exact fun h => ⟨h.1, le_trans h.2 hd⟩
    · simp only [hs, if_false]
      exact fun h => h
  · rw [filtered_df_eq_filter, filtered_df_eq_filter]
    refine List.monotone_filter_right _ (fun r hr => ?_)
    revert hr
    simp only [passes, Bool.and_eq_true, decide_eq_true_eq]
    exact fun h => ⟨⟨⟨h.1.1.1, h.1.1.2⟩,
      le_trans hmin h.1.2.1, le_trans h.1.2.2 hmax⟩, h.2⟩

/-- Witness for C2 (amended): over one listing at distance 5 km, going from a
3 km cutoff to a 7 km cutoff grows the filtered view from empty to the whole
list, and narrowing the price range keeps it a sublist. -/
theorem filter_monotonicity_witness :
    (filtered_df [sampleListing]
        { bedrooms := none, bathrooms := none, price_range := (0, 10000),
          distance_data := some [5], max_distance := some 3,
          table_toggle := Toggle.filtered }).Sublist
      (filtered_df [sampleListing]
        { bedrooms := none, bathrooms := none, price_range := (0, 10000),
          distance_data := some [5], max_distance := some 7,
          table_toggle := Toggle.filtered }) ∧
    (filtered_df [sampleListing]
        { bedrooms := none, bathrooms := none, price_range := (50, 150),
          distance_data := some [5], max_distance := some 3,
          table_toggle := Toggle.filtered }).Sublist
      (filtered_df [sampleListing]
        { bedrooms := none, bathrooms := none, price_range := (0, 10000),
          distance_data := some [5], max_distance := some 3,
          table_toggle := Toggle.filtered }) := by
  have h := filter_monotonicity [sampleListing]
    { bedrooms := none, bathrooms := none, price_range := (0, 10000),
      distance_data := some [5], max_distance := some 3,
      table_toggle := Toggle.filtered }
    3 7 (by norm_num) (by norm_num) 0 10000 50 150 (by norm_num) (by norm_num)
  exact ⟨h.1, h.2⟩

/-- Counterexample to C4 as stated: in display mode `'all'` the table (hence
the Paginator) covers both listings, yet the average-price statistic is the
mean of the filtered view alone (`£100`), not of the full dataset (`£200`):
the summary statistics ignore the display mode. -/
theorem stats_ignore_table_toggle :
    (update_dashboard [sampleListing, sampleListing2]
        { bedrooms := none, bathrooms := none, price_range := (0, 200),
          distance_data := none, max_distance := none,
          table_toggle := Toggle.all } 1).total_items = 2 ∧
    (update_dashboard [sampleListing, sampleListing2]
        { bedrooms := none, bathrooms := none, price_range := (0, 200),
          distance_data := none, max_distance := none,
          table_toggle := Toggle.all } 1).filtered_listings = 1 ∧
    (update_dashboard [sampleListing, sampleListing2]
        { bedrooms := none, bathrooms := none, price_range := (0, 200),
          distance_data := none, max_distance := none,
          table_toggle := Toggle.all } 1).avg_price = some 100 ∧
    listMean ((table_df [sampleListing, sampleListing2]
        { bedrooms := none, bathrooms := none, price_range := (0, 200),
          distance_data := none, max_distance := none,
          table_toggle := Toggle.all }).map (fun r => r.1.price)) = 200 ∧
    (100 : ℚ) ≠ 200 := by
  refine ⟨by decide, by decide, ?_, ?_, by norm_num⟩
  · have h : filtered_df [sampleListing, sampleListing2]
        { bedrooms := none, bathrooms := none, price_range := (0, 200),
          distance_data := none, max_distance := none,
          table_toggle := Toggle.all } = [(sampleListing, 0)] := by decide
    show avg_price [sampleListing, sampleListing2]
        { bedrooms := none, bathrooms := none, price_range := (0, 200),
          distance_data := none, max_distance := none,
          table_toggle := Toggle.all } = some 100
    unfold avg_price filtered_count
    rw [h]
    norm_num [listMean, sampleListing]
  · have h : (table_df [sampleListing, sampleListing2]
        { bedrooms := none, bathrooms := none, price_range := (0, 200),
          distance_data := none, max_distance := none,
          table_toggle := Toggle.all }).map (fun r => r.1.price) = [100, 300] := by
      simp [table_df, addDistanceColumn, sampleListing, sampleListing2]
    rw [h]
    norm_num [listMean]

/-- Claim C4 (amended): in display mode `'all'` the table backing the
Paginator is the full cleaned dataset decorated with the last-applied
distance column (rounded to 3 decimals); in mode `'filtered'` it is the
filtered view; the summary statistics (filtered count, average price, average
distance) are computed over the filtered view in both modes. -/
theorem table_source_and_stats (L : List Listing) (i : DashInput) (p : ℤ)
    (hdd : ∀ ds, i.distance_data = some ds → ds.length = L.length) :
    (i.table_toggle = Toggle.all →
      table_df L i = (addDistanceColumn L i.distance_data).map (fun r => (r.1, round3 r.2)) ∧
      (update_dashboard L i p).total_items = L.length) ∧
    (i.table_toggle = Toggle.filtered →
      table_df L i = (filtered_df L i).map (fun r => (r.1, round3 r.2)) ∧
      (update_dashboard L i p).total_items = filtered_count L i) ∧
    (∀ t : Toggle,
      avg_price L { i with table_toggle := t } = avg_price L i ∧
      avg_dist L { i with table_toggle := t } = avg_dist L i ∧
      filtered_count L { i with table_toggle := t } = filtered_count L i) := by
  have hlen : (addDistanceColumn L i.distance_data).length = L.length := by
    cases hd : i.distance_data with
    | none => simp [addDistanceColumn]
    | some ds =>
        simp only [addDistanceColumn]
        split
        · simp
        · simp [hdd ds hd]
  refine ⟨fun h => ?_, fun h => ?_, fun t => ?_⟩
  · refine ⟨by unfold table_df; rw [h], ?_⟩
    simp only [update_dashboard, table_df, h]
    simpa using hlen
  · refine ⟨by unfold table_df; rw [h], ?_⟩
    simp only [update_dashboard, table_df, h, filtered_count]
    simp
  · have hf : filtered_df L { i with table_toggle := t } = filtered_df L i := rfl
    exact ⟨by simp [avg_price, filtered_count, hf],
      by simp [avg_dist, filtered_count, hf],
      by simp [filtered_count, hf]⟩

/-- Witness for C4 (amended): concrete two-listing check in mode `'all'` with
no distance store. -/
theorem table_source_and_stats_witness :
    table_df [sampleListing, sampleListing2]
        { bedrooms := none, bathrooms := none, price_range := (0, 200),
          distance_data := none, max_distance := none,
          table_toggle := Toggle.all }
      = (addDistanceColumn [sampleListing, sampleListing2] none).map
          (fun r => (r.1, round3 r.2)) ∧
    (update_dashboard [sampleListing, sampleListing2]
        { bedrooms := none, bathrooms := none, price_range := (0, 200),
          distance_data := none, max_distance := none,
          table_toggle := Toggle.all } 1).total_items = 2 :=
  (table_source_and_stats [sampleListing, sampleListing2]
    { bedrooms := none, bathrooms := none, price_range := (0, 200),
      distance_data := none, max_distance := none,
      table_toggle := Toggle.all } 1
    (fun ds hds => by simp at hds)).1 rfl

/-- Claim C8 (confirmed): the filter is the conjunction of the four
predicates - a decorated row is in the output iff it passes the bedrooms rule
(kept when the criterion is `'any'` or the values are equal, missing values
excluded), the bathrooms rule, the inclusive price-range test and the
distance test when active; the relative order of listings is preserved
(sublist); and the empty criteria (`'any'`/a price range covering every
listing/no distance) act as the identity filter. -/
theorem filter_is_conjunction (L : List Listing) (i : DashInput) :
    filtered_df L i = (addDistanceColumn L i.distance_data).filter (passes i) ∧
    (∀ r, r ∈ filtered_df L i ↔
      r ∈ addDistanceColumn L i.distance_data ∧ passes i r = true) ∧
    (filtered_df L i).Sublist (addDistanceColumn L i.distance_data) ∧
    (i.bedrooms = none → i.bathrooms = none → i.distance_data = none →
      (∀ l ∈ L, i.price_range.1 ≤ l.price ∧ l.price ≤ i.price_range.2) →
      filtered_df L i = L.map (fun l => (l, 0))) := by
  refine ⟨filtered_df_eq_filter L i, fun r => ?_, filtered_df_sublist L i, ?_⟩
  · rw [filtered_df_eq_filter]
    exact List.mem_filter
  · intro hb ha hd hp
    rw [filtered_df_eq_filter, hd]
    show (addDistanceColumn L none).filter (passes i) = _
    simp only [addDistanceColumn]
    refine List.filter_eq_self.mpr (fun r hr => ?_)
    obtain ⟨l, hl, rfl⟩ := List.mem_map.mp hr
    simp only [passes, hb, ha, hd, Option.isSome_none, Bool.false_and,
      Bool.false_eq_true, if_false, Bool.and_true, Bool.true_and,
      Bool.and_eq_true, decide_eq_true_eq]
    exact hp l hl

/-- Witness for C8 (confirmed): the identity-filter case at the empty
criteria over a one-listing store. -/
theorem filter_is_conjunction_witness :
    filtered_df [sampleListing] sampleInput = [sampleListing].map (fun l => (l, 0)) :=
  (filter_is_conjunction [sampleListing] sampleInput).2.2.2 rfl rfl rfl
    (fun l hl => by
      simp only [List.mem_singleton] at hl
      subst hl
      exact ⟨by norm_num [sampleListing, sampleInput], by norm_num [sampleListing, sampleInput]⟩)

/-- Claim C9 (confirmed): the average-price statistic is `"N/A"` exactly when
the filtered view is empty and otherwise carries the mean price over the
filtered view; the average-distance statistic is `"N/A"` exactly when the
filtered view is empty or no DistanceQuery is active, and otherwise carries
the mean of the distance column over the filtered view. -/
theorem aggregator_na_conditions (L : List Listing) (i : DashInput) (p : ℤ) :
    ((update_dashboard L i p).avg_price = none ↔
      (update_dashboard L i p).filtered_listings = 0) ∧
    (∀ q, (update_dashboard L i p).avg_price = some q →
      ((update_dashboard L i p).filtered_listings : ℚ) * q
        = ((filtered_df L i).map (fun r => r.1.price)).sum) ∧
    ((update_dashboard L i p).avg_distance = none ↔
      ((update_dashboard L i p).filtered_listings = 0 ∨ i.distance_data = none)) ∧
    (∀ q, (update_dashboard L i p).avg_distance = some q →
      ((update_dashboard L i p).filtered_listings : ℚ) * q
        = ((filtered_df L i).map (fun r => r.2)).sum) := by
  simp only [update_dashboard]
  have hpr : (filtered_df L i).length = filtered_count L i := rfl
  refine ⟨?_, ?_, ?_, ?_⟩
  · unfold avg_price
    split
    · next hc => simp [hpr]; omega
    · next hc => simp [hpr]; omega
  · intro q hq
    unfold avg_price at hq
    split at hq
    · next hc =>
        have hql : listMean ((filtered_df L i).map (fun r => r.1.price)) = q :=
          Option.some_inj.mp hq
        have hne : ((filtered_count L i : ℚ)) ≠ 0 :=
          Nat.cast_ne_zero.mpr (Nat.pos_iff_ne_zero.mp hc)
        rw [hpr, ← hql]
        unfold listMean
        rw [List.length_map, hpr, mul_comm, div_mul_cancel₀ _ hne]
    · exact absurd hq (by simp)
  · unfold avg_dist
    split
    · next hc =>
        obtain ⟨hc1, hc2⟩ := hc
        simp only [hpr]
        constructor
        · intro h; exact absurd h (by simp)
        · intro h
          rcases h with h | h
          · exact absurd h (by omega)
          · rw [h] at hc2; simp at hc2
    · next hc =>
        simp only [hpr]
        constructor
        · intro _
          rcases not_and_or.mp hc with h1 | h1
          · left; omega
          · right; exact Option.not_isSome_iff_eq_none.mp h1
        · intro _; trivial
  · intro q hq
    unfold avg_dist at hq
    split at hq
    · next hc =>
        have hql : listMean ((filtered_df L i).map (fun r => r.2)) = q :=
          Option.some_inj.mp hq
        have hne : ((filtered_count L i : ℚ)) ≠ 0 :=
          Nat.cast_ne_zero.mpr (Nat.pos_iff_ne_zero.mp hc.1)
        rw [hpr, ← hql]
        unfold listMean
        rw [List.length_map, hpr, mul_comm, div_mul_cancel₀ _ hne]
    · exact absurd hq (by simp)

/-- Witness for C9 (confirmed): over one listing of price 100 with no
distance store, the mean characterization gives `1 * q = 100` and the
average distance is `"N/A"`. -/
theorem aggregator_na_conditions_witness :
    (((update_dashboard [sampleListing] sampleInput 1).filtered_listings : ℚ) * 100
      = ((filtered_df [sampleListing] sampleInput).map (fun r => r.1.price)).sum) ∧
    ((update_dashboard [sampleListing] sampleInput 1).avg_distance = none) := by
  have h := aggregator_na_conditions [sampleListing] sampleInput 1
  refine ⟨h.2.1 100 ?_, (h.2.2.1).mpr (Or.inr rfl)⟩
  have hf : filtered_df [sampleListing] sampleInput = [(sampleListing, 0)] := by decide
  show avg_price [sampleListing] sampleInput = some 100
  unfold avg_price filtered_count
  rw [hf]
  norm_num [listMean, sampleListing]

/-- Claim C6 (confirmed): for every table length and page size 10, each view
computation yields `total_pages = max(1, ceil(count/10))`, a current page
clamped into `[1, total_pages]`, an end index `min(current_page*10, count)`, a
page slice of exactly the indices `[(current_page-1)*10, end_index)` of the
table, `has_prev = (current_page > 1)` and `has_next =
(current_page < total_pages)`. -/
theorem pagination_view_formulas (n : ℕ) (p : ℤ) (tbl : List (Listing × ℚ))
    (hn : tbl.length = n) :
    total_pages n = max 1 ⌈(n : ℚ) / 10⌉₊ ∧
    1 ≤ clamp_page p (total_pages n) ∧
    clamp_page p (total_pages n) ≤ (total_pages n : ℤ) ∧
    end_idx (clamp_page p (total_pages n)) n
      = min (clamp_page p (total_pages n) * 10) (n : ℤ) ∧
    ((page_df tbl (clamp_page p (total_pages n))).length : ℤ)
      = end_idx (clamp_page p (total_pages n)) n - start_idx (clamp_page p (total_pages n)) ∧
    (∀ j : ℕ, (j : ℤ) < end_idx (clamp_page p (total_pages n)) n
        - start_idx (clamp_page p (total_pages n)) →
      (page_df tbl (clamp_page p (total_pages n)))[j]?
        = tbl[(start_idx (clamp_page p (total_pages n))).toNat + j]?) ∧
    (!prev_btn_disabled (clamp_page p (total_pages n)))
      = decide (1 < clamp_page p (total_pages n)) ∧
    (!next_btn_disabled (clamp_page p (total_pages n)) (total_pages n))
      = decide (clamp_page p (total_pages n) < (total_pages n : ℤ)) := by
  subst hn
  refine ⟨?_, ?_, ?_, ?_, ?_, ?_, ?_, ?_⟩
  · rw [ceil_div_ten]
    simp only [total_pages, items_per_page]
    omega
  · exact (clamp_page_bounds p tbl.length).1
  · exact (clamp_page_bounds p tbl.length).2
  · simp only [end_idx, start_idx, items_per_page, clamp_page, total_pages]
    omega
  · simp only [page_df, List.length_take, List.length_drop, end_idx, start_idx,
      items_per_page, clamp_page, total_pages]
    omega
  · intro j hj
    simp only [page_df]
    rw [List.getElem?_take, if_pos, List.getElem?_drop]
    revert hj
    simp only [end_idx, start_idx, items_per_page, clamp_page, total_pages]
    omega
  · simp only [prev_btn_disabled, ← decide_not, decide_eq_decide]
    omega
  · simp only [next_btn_disabled, ← decide_not, decide_eq_decide]
    omega

/-- Witness for C6: a three-row table with a requested page beyond the end. -/
theorem pagination_view_formulas_witness :
    ([(sampleListing, (0:ℚ)), (sampleListing, 0), (sampleListing, 0)].length = 3) ∧
    total_pages 3 = max 1 ⌈(3 : ℚ) / 10⌉₊ ∧
    1 ≤ clamp_page 5 (total_pages 3) ∧
    clamp_page 5 (total_pages 3) ≤ (total_pages 3 : ℤ) :=
  ⟨rfl,
    (pagination_view_formulas 3 5
      [(sampleListing, 0), (sampleListing, 0), (sampleListing, 0)] rfl).1,
    (pagination_view_formulas 3 5
      [(sampleListing, 0), (sampleListing, 0), (sampleListing, 0)] rfl).2.1,
    (pagination_view_formulas 3 5
      [(sampleListing, 0), (sampleListing, 0), (sampleListing, 0)] rfl).2.2.1⟩

end FindingAFlat
